import Mathlib

/-!
Verification of the odoo-kopia-snapshot orchestration scripts.

This file gives a shallow embedding of the Python orchestration code
(backup.py, src/odoo_kopia_snapshot/restore.py, utils.py, kube.py) and
proves properties of the embedded definitions.

Modelling conventions:
- External processes are identified by a `Cmd` tag; the outcome of each
  external command in a given run is supplied by a "world" record giving
  the exit code each command would return.
- `sys.exit(n)` is modelled as `Outcome.exited n`; an uncaught
  `subprocess.CalledProcessError` raised by `run_command` with
  `check=True` (which terminates the interpreter with a non-zero status)
  is modelled as `Outcome.raised c` where `c` is the failing command.
- Filesystem paths are modelled as lists of components in already
  resolved form; `Path.is_relative_to` on resolved paths is component
  prefix testing.
- `time.sleep(i)` is modelled by accumulating the slept seconds.
- Strings from the Python side are modelled as `List Char` where
  character-level splitting matters (env entries, file names).
-/

namespace OdooKopia

/-- External commands the orchestrators invoke, in the order they appear
in the source. -/
inductive Cmd where
  | pgIsready
  | pgDump
  | kopiaConnect
  | kopiaCreate
  | kopiaPolicyGlobal
  | kopiaPolicyDb
  | kopiaSnapshotCreate
  | kopiaMaintenance
  | kopiaStats
  | kopiaDisconnect
  | kopiaRestoreDb
  | sha256Check
  | pgRestore
  | kopiaRestoreFs
  deriving DecidableEq, Repr

/-- How a run of an orchestrator process ends: `exited n` models
`sys.exit(n)` (argparse errors exit with 2); `raised c` models an
uncaught CalledProcessError from command `c` propagating out of `main`,
which makes the interpreter terminate with a non-zero status. -/
inductive Outcome where
  | exited (code : Nat)
  | raised (c : Cmd)
  deriving DecidableEq, Repr

/-- Result of running an orchestrator: final outcome, the external
commands executed in order, and total seconds slept. -/
structure ExecResult where
  outcome : Outcome
  trace : List Cmd
  slept : Nat
  deriving DecidableEq, Repr

/-- A path in resolved form, as a list of components. -/
abbrev RPath := List String

/-- The readiness-wait loop shared by backup.py (lines 66-84) and
restore.py (lines 286-305): `for i in range(1, 10)` runs `pg_isready`;
on success it breaks, on failure it sleeps `i` seconds and retries.
`probe i` tells whether the i-th `pg_isready` call succeeds.  Returns
(attempt index of the first success if any, commands run, seconds
slept). -/
def pgWaitGo (probe : Nat → Bool) : List Nat → Option Nat × List Cmd × Nat
  | [] => (none, [], 0)
  | i :: rest =>
    if probe i then (some i, [Cmd.pgIsready], 0)
    else
      let r := pgWaitGo probe rest
      (r.1, Cmd.pgIsready :: r.2.1, i + r.2.2)

/-- `range(1, 10)` gives attempts 1 through 9. -/
def pgWait (probe : Nat → Bool) : Option Nat × List Cmd × Nat :=
  pgWaitGo probe [1, 2, 3, 4, 5, 6, 7, 8, 9]

/-- Configuration of one backup.py invocation (the argparse fields the
orchestration logic branches on). Paths are stored resolved. -/
structure BackupCfg where
  postgresBackup : Bool
  postgresBackupCleanup : Bool
  postgresBackupDir : RPath
  odooDir : RPath
  noKopiaMaintenance : Bool
  deriving DecidableEq, Repr

/-- The environment of one backup.py run: whether the five required
PG variables are all set, the readiness probe, and the exit code each
external command would return. -/
structure BackupWorld where
  pgEnvOk : Bool
  probe : Nat → Bool
  pgDumpExit : Nat
  connectExit : Nat
  createExit : Nat
  policyGlobalExit : Nat
  policyDbExit : Nat
  snapshotExit : Nat
  maintenanceExit : Nat
  statsExit : Nat
  disconnectExit : Nat

/-- A step run via `run_command(cmd)` with the default `check=True`:
exit 0 continues with the command appended to the trace; a non-zero
exit raises CalledProcessError, which propagates. -/
def checkedStep (c : Cmd) (exitCode : Nat) (tr : List Cmd) (s : Nat)
    (k : List Cmd → Nat → ExecResult) : ExecResult :=
  if exitCode = 0 then k (tr ++ [c]) s else ⟨Outcome.raised c, tr ++ [c], s⟩

/-- backup.py `run_postgres_backup` (lines 39-103): containment check,
required-environment check, readiness wait, then `pg_dump`.  On success
returns the trace and slept seconds; on abort returns the final result. -/
def run_postgres_backup (cfg : BackupCfg) (w : BackupWorld) :
    Except ExecResult (List Cmd × Nat) :=
  if ¬ List.isPrefixOf cfg.odooDir cfg.postgresBackupDir then
    Except.error ⟨Outcome.exited 1, [], 0⟩
  else if ¬ w.pgEnvOk then
    Except.error ⟨Outcome.exited 1, [], 0⟩
  else
    match pgWait w.probe with
    | (none, tr, s) => Except.error ⟨Outcome.exited 1, tr, s⟩
    | (some _, tr, s) =>
      if w.pgDumpExit = 0 then Except.ok (tr ++ [Cmd.pgDump], s)
      else Except.error ⟨Outcome.raised Cmd.pgDump, tr ++ [Cmd.pgDump], s⟩

/-- backup.py lines 354-361: content stats then repository disconnect,
both via `run_command` with `check=True`, then `sys.exit(0)`.  (The
dump-file cleanup between disconnect and exit performs no external
command.) -/
def backupStats (w : BackupWorld) (tr : List Cmd) (s : Nat) : ExecResult :=
  checkedStep Cmd.kopiaStats w.statsExit tr s (fun tr s =>
    checkedStep Cmd.kopiaDisconnect w.disconnectExit tr s (fun tr s =>
      ⟨Outcome.exited 0, tr, s⟩))

/-- backup.py lines 342-352: optional maintenance run. -/
def backupMaint (cfg : BackupCfg) (w : BackupWorld) (tr : List Cmd) (s : Nat) :
    ExecResult :=
  if cfg.noKopiaMaintenance then backupStats w tr s
  else checkedStep Cmd.kopiaMaintenance w.maintenanceExit tr s (backupStats w)

/-- backup.py lines 296-340: the two policy-set commands and the
snapshot creation, all must-succeed. -/
def backupPolicies (cfg : BackupCfg) (w : BackupWorld) (tr : List Cmd) (s : Nat) :
    ExecResult :=
  checkedStep Cmd.kopiaPolicyGlobal w.policyGlobalExit tr s (fun tr s =>
    checkedStep Cmd.kopiaPolicyDb w.policyDbExit tr s (fun tr s =>
      checkedStep Cmd.kopiaSnapshotCreate w.snapshotExit tr s (fun tr s =>
        backupMaint cfg w tr s)))

/-- backup.py lines 268-294: repository connect with `check=False`; if
it fails, repository create with `check=True`. -/
def backupKopia (cfg : BackupCfg) (w : BackupWorld) (tr : List Cmd) (s : Nat) :
    ExecResult :=
  if w.connectExit = 0 then backupPolicies cfg w (tr ++ [Cmd.kopiaConnect]) s
  else
    checkedStep Cmd.kopiaCreate w.createExit (tr ++ [Cmd.kopiaConnect]) s
      (backupPolicies cfg w)

/-- backup.py `main` after argument parsing (lines 237-373): optional
postgres backup, then the kopia pipeline. -/
def backupMain (cfg : BackupCfg) (w : BackupWorld) : ExecResult :=
  if cfg.postgresBackup then
    match run_postgres_backup cfg w with
    | Except.error r => r
    | Except.ok (tr, s) => backupKopia cfg w tr s
  else backupKopia cfg w [] 0

/-- Python `str.partition(sep)` restricted to a one-character separator:
`some (before, after)` splits at the first occurrence of `sep`; `none`
when `sep` does not occur (Python then returns `(s, "", "")`). -/
def pyPartition (sep : Char) : List Char → Option (List Char × List Char)
  | [] => none
  | c :: rest =>
    if c = sep then some ([], rest)
    else
      match pyPartition sep rest with
      | some (a, b) => some (c :: a, b)
      | none => none

/-- The part before the first `sep`; the whole string when `sep` is
absent (first component of Python's `partition`). -/
def partBefore (sep : Char) (cs : List Char) : List Char :=
  match pyPartition sep cs with
  | some (a, _) => a
  | none => cs

/-- The part after the first `sep`; empty when `sep` is absent (third
component of Python's `partition`). -/
def partAfter (sep : Char) (cs : List Char) : List Char :=
  match pyPartition sep cs with
  | some (_, b) => b
  | none => []

/-- Split a name at its LAST dot: `some (pre, post)` with
`cs = pre ++ '.' :: post` and no dot in `post`; `none` if no dot. -/
def lastDotSplit : List Char → Option (List Char × List Char)
  | [] => none
  | c :: rest =>
    match lastDotSplit rest with
    | some (pre, post) => some (c :: pre, post)
    | none => if c = '.' then some ([], rest) else none

/-- Python `PurePath.stem` for a plain file name: the name without its
final extension; a suffix only counts when the last dot is neither the
first nor the last character. -/
def stemChars (cs : List Char) : List Char :=
  match lastDotSplit cs with
  | some (pre, post) => if pre = [] ∨ post = [] then cs else pre
  | none => cs

/-- The characters of the literal suffix ".dump". -/
def dumpExt : List Char := ['.', 'd', 'u', 'm', 'p']

/-- `fnmatch` of a file name against the glob pattern `*.dump` (as used
by `backup_dir.glob("*.dump")`): `*` matches any, possibly empty,
sequence, so the pattern is exactly "ends with .dump". -/
def matchesDumpPattern (cs : List Char) : Bool :=
  List.isSuffixOf dumpExt cs

/-- restore.py `detect_source_database` (lines 17-29): glob `*.dump` in
the backup directory; zero or multiple matches are fatal
(`sys.exit(1)`, modelled as `Except.error 1`); a unique match yields
its `Path.stem`. -/
def detect_source_database (files : List (List Char)) : Except Nat (List Char) :=
  match files.filter matchesDumpPattern with
  | [] => Except.error 1
  | [f] => Except.ok (stemChars f)
  | _ => Except.error 1

/-- Configuration of one restore.py invocation (argparse fields the
control flow branches on, after the `--no-*` flags are folded in). -/
structure RestoreCfg where
  postgresRestore : Bool
  postgresBackupCleanup : Bool
  downloadOnly : Bool
  downloadPathGiven : Bool
  sourceDatabase : Option (List Char)
  targetDatabase : Option String
  filestoreRestore : Bool
  deriving DecidableEq, Repr

/-- The environment of one restore.py run: the `PGDATABASE` fallback,
whether the four required PG variables are set, the files present in
the dump staging directory after the snapshot sub-path restore, the
checksum sidecar state, the readiness probe, and the exit code of each
external command. `sha256Exit` is the exit code `sha256sum -c` would
return: 0 exactly when the recorded digest matches the dump file. -/
structure RestoreWorld where
  pgdatabaseEnv : Option String
  pgEnvOk : Bool
  connectExit : Nat
  restoreDbExit : Nat
  dumpDirFiles : List (List Char)
  sidecarExists : Bool
  sha256Exit : Nat
  probe : Nat → Bool
  pgRestoreExit : Nat
  restoreFsExit : Nat
  disconnectExit : Nat

/-- restore.py lines 361-367: disconnect (`check=True`) then
`sys.exit(0)`. -/
def restoreDisconnect (w : RestoreWorld) (tr : List Cmd) (s : Nat) : ExecResult :=
  checkedStep Cmd.kopiaDisconnect w.disconnectExit tr s (fun tr s =>
    ⟨Outcome.exited 0, tr, s⟩)

/-- restore.py lines 332-359: optional filestore restore; needs a known
source database name, otherwise fatal. -/
def restoreFilestore (cfg : RestoreCfg) (w : RestoreWorld)
    (src : Option (List Char)) (tr : List Cmd) (s : Nat) : ExecResult :=
  if cfg.filestoreRestore then
    match src with
    | none => ⟨Outcome.exited 1, tr, s⟩
    | some _ =>
      checkedStep Cmd.kopiaRestoreFs w.restoreFsExit tr s (restoreDisconnect w)
  else restoreDisconnect w tr s

/-- utils.py `verify_checksum` (lines 60-78) as it acts inside the
restore flow: sidecar absent warns and skips; sidecar present runs
`sha256sum -c`, continuing on exit 0 and calling `sys.exit(1)` on a
mismatch. -/
def verify_checksum (w : RestoreWorld) (tr : List Cmd) (s : Nat)
    (k : List Cmd → Nat → ExecResult) : ExecResult :=
  if w.sidecarExists then
    if w.sha256Exit = 0 then k (tr ++ [Cmd.sha256Check]) s
    else ⟨Outcome.exited 1, tr ++ [Cmd.sha256Check], s⟩
  else k tr s

/-- restore.py lines 285-327: unless download-only, wait for readiness,
run `pg_restore`, and (cleanup permitting) unlink the dump and sidecar;
the unlink performs no external command. -/
def restorePgApply (cfg : RestoreCfg) (w : RestoreWorld)
    (src : List Char) (tr : List Cmd) (s : Nat) : ExecResult :=
  if cfg.downloadOnly then restoreFilestore cfg w (some src) tr s
  else
    match pgWait w.probe with
    | (none, tr2, s2) => ⟨Outcome.exited 1, tr ++ tr2, s + s2⟩
    | (some _, tr2, s2) =>
      checkedStep Cmd.pgRestore w.pgRestoreExit (tr ++ tr2) (s + s2)
        (restoreFilestore cfg w (some src))

/-- restore.py lines 255-330: the database-restore branch: snapshot
sub-path restore, source-database resolution (explicit flag or
auto-detection), dump-file existence check, checksum verification,
then the apply phase. -/
def restorePg (cfg : RestoreCfg) (w : RestoreWorld) (tr : List Cmd) (s : Nat) :
    ExecResult :=
  if cfg.postgresRestore then
    checkedStep Cmd.kopiaRestoreDb w.restoreDbExit tr s (fun tr s =>
      match (match cfg.sourceDatabase with
             | some sdb => Except.ok sdb
             | none => detect_source_database w.dumpDirFiles) with
      | Except.error c => ⟨Outcome.exited c, tr, s⟩
      | Except.ok sdb =>
        if (sdb ++ dumpExt) ∈ w.dumpDirFiles then
          verify_checksum w tr s (restorePgApply cfg w sdb)
        else ⟨Outcome.exited 1, tr, s⟩)
  else restoreFilestore cfg w cfg.sourceDatabase tr s

/-- restore.py `main` after argument parsing (lines 172-367).  The
`--download-only` handling happens first: `parser.error` when no
`--download-path` was supplied, which exits with argparse's status 2.
Then target-database resolution and the PG environment check (both only
when a live database restore will happen), then the read-only repository
connect (`check=False`, exit 1 on failure), then the restore pipeline. -/
def restoreMain (cfg : RestoreCfg) (w : RestoreWorld) : ExecResult :=
  if cfg.downloadOnly ∧ ¬ cfg.downloadPathGiven then ⟨Outcome.exited 2, [], 0⟩
  else
    let target := match cfg.targetDatabase with
                  | some t => some t
                  | none => w.pgdatabaseEnv
    if cfg.postgresRestore ∧ ¬ cfg.downloadOnly ∧ target = none then
      ⟨Outcome.exited 1, [], 0⟩
    else if cfg.postgresRestore ∧ ¬ cfg.downloadOnly ∧ ¬ w.pgEnvOk then
      ⟨Outcome.exited 1, [], 0⟩
    else if w.connectExit ≠ 0 then ⟨Outcome.exited 1, [Cmd.kopiaConnect], 0⟩
    else restorePg cfg w [Cmd.kopiaConnect] 0

/-- An item of the `envFrom` list (kube.py `build_env_from`). -/
inductive EnvFromItem where
  | secretRef (name : String)
  | configMapRef (name : String)
  deriving DecidableEq, Repr

/-- An item of the `env` list (kube.py `build_env_vars`): a literal
name/value pair, a `secretKeyRef`, or a `configMapKeyRef`. -/
inductive EnvItem where
  | literal (name value : List Char)
  | secretKeyRef (name sourceName key : List Char)
  | configMapKeyRef (name sourceName key : List Char)
  deriving DecidableEq, Repr

/-- kube.py `build_env_from` (lines 9-16): secret references first,
then configmap references, each in input order. -/
def build_env_from (secret_refs configmap_refs : List String) : List EnvFromItem :=
  secret_refs.map EnvFromItem.secretRef
    ++ configmap_refs.map EnvFromItem.configMapRef

/-- One literal entry of `build_env_vars`: `entry.partition("=")`. -/
def envLiteralItem (entry : List Char) : EnvItem :=
  EnvItem.literal (partBefore '=' entry) (partAfter '=' entry)

/-- One secret-reference entry of `build_env_vars`: split on the first
`=`, then the remainder on the first `:`. -/
def envSecretItem (entry : List Char) : EnvItem :=
  EnvItem.secretKeyRef (partBefore '=' entry)
    (partBefore ':' (partAfter '=' entry))
    (partAfter ':' (partAfter '=' entry))

/-- One configmap-reference entry of `build_env_vars`. -/
def envConfigMapItem (entry : List Char) : EnvItem :=
  EnvItem.configMapKeyRef (partBefore '=' entry)
    (partBefore ':' (partAfter '=' entry))
    (partAfter ':' (partAfter '=' entry))

/-- kube.py `build_env_vars` (lines 19-44): literals, then secret
references, then configmap references, each preserving input order. -/
def build_env_vars (env_literals env_from_secret env_from_configmap : List (List Char)) :
    List EnvItem :=
  env_literals.map envLiteralItem
    ++ env_from_secret.map envSecretItem
    ++ env_from_configmap.map envConfigMapItem

/-- A `volumeMounts` entry. -/
structure VolumeMount where
  name : String
  mountPath : String
  deriving DecidableEq, Repr

/-- kube.py `build_volume_mounts` (lines 47-53). -/
def build_volume_mounts : List VolumeMount :=
  [⟨"odoo-data", "/var/lib/odoo"⟩,
   ⟨"kopia-cache", "/tmp/kopia"⟩,
   ⟨"postgres-dump", "/var/lib/odoo/database-backup"⟩]

/-- A `volumes` entry: either a persistent-volume-claim volume or an
ephemeral volume with a storage request. -/
inductive Volume where
  | pvc (name claimName : String)
  | ephemeral (name storageRequest : String)
  deriving DecidableEq, Repr

/-- kube.py `build_volumes` (lines 56-85). -/
def build_volumes (filestore_pvc kopia_cache_size postgres_dump_size : String) :
    List Volume :=
  [Volume.pvc "odoo-data" filestore_pvc,
   Volume.ephemeral "kopia-cache" kopia_cache_size,
   Volume.ephemeral "postgres-dump" postgres_dump_size]

/-- kube.py `build_resources` (lines 88-93). -/
structure Resources where
  memoryRequest : String
  cpuRequest : String
  memoryLimit : String
  cpuLimit : String
  deriving DecidableEq, Repr

def build_resources (memory_request memory_limit cpu_request cpu_limit : String) :
    Resources :=
  ⟨memory_request, cpu_request, memory_limit, cpu_limit⟩

/-- kube.py `build_security_context` (lines 96-102). -/
structure SecurityContext where
  runAsUser : Int
  runAsGroup : Int
  fsGroup : Int
  deriving DecidableEq, Repr

def build_security_context (run_as_user run_as_group fs_group : Int) :
    SecurityContext :=
  ⟨run_as_user, run_as_group, fs_group⟩

/-- The container dict built by `build_pod_spec`: `envFrom` and `env`
are optional because the keys are only added when the corresponding
lists are non-empty. -/
structure Container where
  name : String
  image : String
  envFrom : Option (List EnvFromItem)
  env : Option (List EnvItem)
  args : List String
  volumeMounts : List VolumeMount
  resources : Resources
  deriving DecidableEq, Repr

/-- The pod spec dict built by `build_pod_spec`. -/
structure PodSpec where
  restartPolicy : String
  securityContext : SecurityContext
  containers : List Container
  volumes : List Volume
  deriving DecidableEq, Repr

/-- The argparse fields of the manifest generators that
`build_pod_spec` reads. -/
structure PodArgs where
  image : String
  secret_ref : List String
  configmap_ref : List String
  env_literals : List (List Char)
  env_from_secret : List (List Char)
  env_from_configmap : List (List Char)
  memory_request : String
  memory_limit : String
  cpu_request : String
  cpu_limit : String
  run_as_user : Int
  run_as_group : Int
  fs_group : Int
  filestore_pvc : String
  kopia_cache_size : String
  postgres_dump_size : String
  deriving DecidableEq, Repr

/-- kube.py `build_pod_spec` (lines 189-222): one container whose
`args` is `[command] + extra_args`, with `envFrom`/`env` only present
when non-empty, fixed volume mounts, resources, a never-restart
policy, the pod security context, and the volume list. -/
def build_pod_spec (a : PodArgs) (command : String) (extra_args : List String) :
    PodSpec :=
  let env_from := build_env_from a.secret_ref a.configmap_ref
  let env_vars := build_env_vars a.env_literals a.env_from_secret a.env_from_configmap
  { restartPolicy := "Never"
    securityContext := build_security_context a.run_as_user a.run_as_group a.fs_group
    containers := [{ name := command
                     image := a.image
                     envFrom := if env_from = [] then none else some env_from
                     env := if env_vars = [] then none else some env_vars
                     args := command :: extra_args
                     volumeMounts := build_volume_mounts
                     resources := build_resources a.memory_request a.memory_limit
                       a.cpu_request a.cpu_limit }]
    volumes := build_volumes a.filestore_pvc a.kopia_cache_size a.postgres_dump_size }

/-! Helper lemmas about the character-splitting functions. -/

theorem pyPartition_append {sep : Char} :
    ∀ {cs a b : List Char}, pyPartition sep cs = some (a, b) → cs = a ++ sep :: b := by
  intro cs
  induction cs with
  | nil => intro a b h; simp [pyPartition] at h
  | cons c rest ih =>
    intro a b h
    rw [pyPartition] at h
    by_cases hc : c = sep
    · rw [if_pos hc] at h
      simp only [Option.some.injEq, Prod.mk.injEq] at h
      obtain ⟨h1, h2⟩ := h
      subst h1; subst h2; subst hc; rfl
    · rw [if_neg hc] at h
      cases hp : pyPartition sep rest with
      | none => rw [hp] at h; exact absurd h (by simp)
      | some p =>
        obtain ⟨a', b'⟩ := p
        rw [hp] at h
        simp only [Option.some.injEq, Prod.mk.injEq] at h
        obtain ⟨h1, h2⟩ := h
        subst h1
        subst h2
        rw [ih hp]
        rfl

theorem pyPartition_of_not_mem {sep : Char} :
    ∀ {cs : List Char}, sep ∉ cs → pyPartition sep cs = none := by
  intro cs
  induction cs with
  | nil => intro _; rfl
  | cons c rest ih =>
    intro h
    rw [pyPartition]
    have hc : ¬ c = sep := fun hc => h (hc ▸ List.mem_cons_self c rest)
    rw [if_neg hc, ih (fun hm => h (List.mem_cons_of_mem c hm))]

theorem lastDotSplit_of_not_mem :
    ∀ {cs : List Char}, ('.') ∉ cs → lastDotSplit cs = none := by
  intro cs
  induction cs with
  | nil => intro _; rfl
  | cons c rest ih =>
    intro h
    rw [lastDotSplit, ih (fun hm => h (List.mem_cons_of_mem c hm))]
    exact if_neg (fun hc => h (by rw [← hc]; exact List.mem_cons_self c rest))

theorem lastDotSplit_append {post : List Char} (hpost : ('.') ∉ post) :
    ∀ pre : List Char, lastDotSplit (pre ++ '.' :: post) = some (pre, post) := by
  intro pre
  induction pre with
  | nil =>
    rw [List.nil_append, lastDotSplit, lastDotSplit_of_not_mem hpost]
    rfl
  | cons c rest ih =>
    rw [List.cons_append, lastDotSplit, ih]

theorem stemChars_append {pre post : List Char} (hpre : pre ≠ [])
    (hpost : post ≠ []) (hdot : ('.') ∉ post) :
    stemChars (pre ++ '.' :: post) = pre := by
  rw [stemChars, lastDotSplit_append hdot]
  simp [hpre, hpost]

/-- C5: for every staging directory whose files matching the glob
`*.dump` are exactly one file named `foo.dump`, `detect_source_database`
returns `foo`; for zero matches or more than one match it exits with
code 1. -/
theorem detect_source_database_spec (files : List (List Char)) (foo : List Char)
    (hfoo : foo ≠ []) :
    (files.filter matchesDumpPattern = [foo ++ dumpExt] →
      detect_source_database files = Except.ok foo)
    ∧ (files.filter matchesDumpPattern = [] →
      detect_source_database files = Except.error 1)
    ∧ (1 < (files.filter matchesDumpPattern).length →
      detect_source_database files = Except.error 1) := by
  refine ⟨?_, ?_, ?_⟩
  · intro h
    have hstem : stemChars (foo ++ dumpExt) = foo := by
      have hd : ('.') ∉ (['d', 'u', 'm', 'p'] : List Char) := by decide
      have := @stemChars_append foo ['d', 'u', 'm', 'p'] hfoo (by decide) hd
      simpa [dumpExt] using this
    simp [detect_source_database, h, hstem]
  · intro h
    simp [detect_source_database, h]
  · intro h
    rcases hl : files.filter matchesDumpPattern with _ | ⟨x, _ | ⟨y, t⟩⟩
    · rw [hl] at h; simp at h
    · rw [hl] at h; simp at h
    · simp [detect_source_database, hl]

theorem detect_source_database_spec_witness :
    detect_source_database [['a', '.', 'd', 'u', 'm', 'p']] = Except.ok ['a'] :=
  (detect_source_database_spec [['a', '.', 'd', 'u', 'm', 'p']] ['a']
    (by decide)).1 (by decide)

/-- C7: every secret-reference or configmap-reference entry of
`build_env_vars` is split on the first `=` and the remainder on the
first `:`; for an entry in reference form, which is what the two
reference lists carry, reconstructing NAME + "=" + SOURCE + ":" + KEY
from the produced fields gives back the original entry. -/
theorem build_env_vars_roundtrip (lits secs cms : List (List Char))
    (entry n r s k : List Char)
    (h1 : pyPartition '=' entry = some (n, r))
    (h2 : pyPartition ':' r = some (s, k)) :
    n ++ '=' :: (s ++ ':' :: k) = entry
    ∧ (entry ∈ secs → EnvItem.secretKeyRef n s k ∈ build_env_vars lits secs cms)
    ∧ (entry ∈ cms → EnvItem.configMapKeyRef n s k ∈ build_env_vars lits secs cms) := by
  have he : entry = n ++ '=' :: r := pyPartition_append h1
  have hr : r = s ++ ':' :: k := pyPartition_append h2
  refine ⟨by rw [he, hr], ?_, ?_⟩
  · intro hm
    have hi : envSecretItem entry = EnvItem.secretKeyRef n s k := by
      simp [envSecretItem, partBefore, partAfter, h1, h2]
    rw [← hi]
    unfold build_env_vars
    exact List.mem_append_left _
      (List.mem_append_right _ (List.mem_map_of_mem _ hm))
  · intro hm
    have hi : envConfigMapItem entry = EnvItem.configMapKeyRef n s k := by
      simp [envConfigMapItem, partBefore, partAfter, h1, h2]
    rw [← hi]
    unfold build_env_vars
    exact List.mem_append_right _ (List.mem_map_of_mem _ hm)

theorem build_env_vars_roundtrip_witness :
    ['A'] ++ '=' :: (['B'] ++ ':' :: ['C']) = ['A', '=', 'B', ':', 'C']
    ∧ EnvItem.secretKeyRef ['A'] ['B'] ['C']
        ∈ build_env_vars [] [['A', '=', 'B', ':', 'C']] [] := by
  have h := build_env_vars_roundtrip [] [['A', '=', 'B', ':', 'C']] []
    ['A', '=', 'B', ':', 'C'] ['A'] ['B', ':', 'C'] ['B'] ['C']
    (by decide) (by decide)
  exact ⟨h.1, h.2.1 (by decide)⟩

/-- C8: for every subcommand and extra-argument list, the single
container of `build_pod_spec` has `args = [subcommand] + extra_args`,
preserving order. -/
theorem build_pod_spec_args (a : PodArgs) (command : String)
    (extra_args : List String) :
    (build_pod_spec a command extra_args).containers.map Container.args
      = [command :: extra_args] := rfl

/-- C9: a literal env entry with no `=` character does not make
`build_env_vars` fail: it produces an item whose name is the whole
entry and whose value is empty. -/
theorem build_env_vars_literal_no_eq (lits secs cms : List (List Char))
    (entry : List Char) (hmem : entry ∈ lits) (hne : ('=') ∉ entry) :
    EnvItem.literal entry [] ∈ build_env_vars lits secs cms := by
  have hp : pyPartition '=' entry = none := pyPartition_of_not_mem hne
  have hi : envLiteralItem entry = EnvItem.literal entry [] := by
    simp [envLiteralItem, partBefore, partAfter, hp]
  rw [← hi]
  unfold build_env_vars
  exact List.mem_append_left _
    (List.mem_append_left _ (List.mem_map_of_mem _ hmem))

theorem build_env_vars_literal_no_eq_witness :
    EnvItem.literal ['A', 'B', 'C'] [] ∈ build_env_vars [['A', 'B', 'C']] [] [] :=
  build_env_vars_literal_no_eq [['A', 'B', 'C']] [] [] ['A', 'B', 'C']
    (by decide) (by decide)

/-- C2 counterexample: at a concrete restore invocation with
--download-only set and no --download-path, the process terminates
via argparse `parser.error`, which exits with code 2, not 1. -/
theorem restore_download_only_exit_code_counterexample :
    restoreMain ⟨true, true, true, false, none, none, false⟩
        ⟨none, true, 0, 0, [], true, 0, fun _ => false, 0, 0, 0⟩
      = ⟨Outcome.exited 2, [], 0⟩
    ∧ Outcome.exited 2 ≠ Outcome.exited 1 :=
  ⟨rfl, by decide⟩

/-- C2 amended: for every restore invocation with --download-only set
and no --download-path supplied, the process treats this as a fatal
configuration error and exits immediately, before connecting to the
repository — but with argparse's usage-error exit code 2, not 1. -/
theorem restore_download_only_requires_path (cfg : RestoreCfg) (w : RestoreWorld)
    (h1 : cfg.downloadOnly = true) (h2 : cfg.downloadPathGiven = false) :
    restoreMain cfg w = ⟨Outcome.exited 2, [], 0⟩ := by
  simp [restoreMain, h1, h2]

theorem restore_download_only_requires_path_witness :
    restoreMain ⟨false, true, true, false, none, none, false⟩
        ⟨none, true, 0, 0, [], true, 0, fun _ => true, 0, 0, 0⟩
      = ⟨Outcome.exited 2, [], 0⟩ :=
  restore_download_only_requires_path _ _ rfl rfl

/-- C4: checksum verification of a restored dump: with a matching
sidecar digest the run continues (through pg_restore to success, all
later steps succeeding); with a mismatched digest the run exits 1
right after the checksum command and before pg_restore; with no
sidecar present verification is skipped and the run continues. -/
theorem restore_verify_checksum_spec (cfg : RestoreCfg) (w : RestoreWorld)
    (sdb : List Char) (tdb : String)
    (hpr : cfg.postgresRestore = true)
    (hdl : cfg.downloadOnly = false)
    (htd : cfg.targetDatabase = some tdb)
    (henv : w.pgEnvOk = true)
    (hconn : w.connectExit = 0)
    (hrdb : w.restoreDbExit = 0)
    (hsrc : cfg.sourceDatabase = some sdb)
    (hfile : (sdb ++ dumpExt) ∈ w.dumpDirFiles)
    (hprobe : w.probe 1 = true)
    (hpg : w.pgRestoreExit = 0)
    (hfs : cfg.filestoreRestore = false)
    (hdisc : w.disconnectExit = 0) :
    (w.sidecarExists = true → w.sha256Exit = 0 →
      restoreMain cfg w = ⟨Outcome.exited 0,
        [Cmd.kopiaConnect, Cmd.kopiaRestoreDb, Cmd.sha256Check,
         Cmd.pgIsready, Cmd.pgRestore, Cmd.kopiaDisconnect], 0⟩)
    ∧ (w.sidecarExists = true → w.sha256Exit ≠ 0 →
      restoreMain cfg w = ⟨Outcome.exited 1,
        [Cmd.kopiaConnect, Cmd.kopiaRestoreDb, Cmd.sha256Check], 0⟩)
    ∧ (w.sidecarExists = false →
      restoreMain cfg w = ⟨Outcome.exited 0,
        [Cmd.kopiaConnect, Cmd.kopiaRestoreDb,
         Cmd.pgIsready, Cmd.pgRestore, Cmd.kopiaDisconnect], 0⟩) := by
  refine ⟨?_, ?_, ?_⟩
  · intro hsc hsha
    simp [restoreMain, hdl, htd, henv, hconn, restorePg, hpr, checkedStep, hrdb,
      hsrc, hfile, verify_checksum, hsc, hsha, restorePgApply, pgWait, pgWaitGo,
      hprobe, hpg, restoreFilestore, hfs, restoreDisconnect, hdisc]
  · intro hsc hsha
    simp [restoreMain, hdl, htd, henv, hconn, restorePg, hpr, checkedStep, hrdb,
      hsrc, hfile, verify_checksum, hsc, hsha]
  · intro hsc
    simp [restoreMain, hdl, htd, henv, hconn, restorePg, hpr, checkedStep, hrdb,
      hsrc, hfile, verify_checksum, hsc, restorePgApply, pgWait, pgWaitGo,
      hprobe, hpg, restoreFilestore, hfs, restoreDisconnect, hdisc]

theorem restore_verify_checksum_spec_witness :
    restoreMain ⟨true, true, false, false, some ['d', 'b'], some "t", false⟩
        ⟨none, true, 0, 0, [['d', 'b', '.', 'd', 'u', 'm', 'p']], true, 0,
         fun _ => true, 0, 0, 0⟩
      = ⟨Outcome.exited 0,
         [Cmd.kopiaConnect, Cmd.kopiaRestoreDb, Cmd.sha256Check,
          Cmd.pgIsready, Cmd.pgRestore, Cmd.kopiaDisconnect], 0⟩ :=
  (restore_verify_checksum_spec _ _ ['d', 'b'] "t" rfl rfl rfl rfl rfl rfl rfl
    (by decide) rfl rfl rfl rfl).1 rfl rfl

/-- C10: in a restore with database restore requested and an explicit
source database, if the file source.dump is absent from the working
directory after the snapshot sub-path restore, the process exits 1
right there: the trace ends after connect and the dump restore, so no
checksum verification and no pg_restore take place. -/
theorem restore_missing_dump_aborts (cfg : RestoreCfg) (w : RestoreWorld)
    (sdb : List Char)
    (hpr : cfg.postgresRestore = true)
    (hsrc : cfg.sourceDatabase = some sdb)
    (hpath : cfg.downloadOnly = true → cfg.downloadPathGiven = true)
    (htgt : cfg.downloadOnly = false →
      ¬(cfg.targetDatabase = none ∧ w.pgdatabaseEnv = none))
    (henv : cfg.downloadOnly = false → w.pgEnvOk = true)
    (hconn : w.connectExit = 0)
    (hrdb : w.restoreDbExit = 0)
    (hmiss : (sdb ++ dumpExt) ∉ w.dumpDirFiles) :
    restoreMain cfg w
      = ⟨Outcome.exited 1, [Cmd.kopiaConnect, Cmd.kopiaRestoreDb], 0⟩ := by
  cases hdl : cfg.downloadOnly with
  | true =>
    have hp := hpath hdl
    simp [restoreMain, hdl, hp, hconn, restorePg, hpr, checkedStep, hrdb,
      hsrc, hmiss]
  | false =>
    have ht := htgt hdl
    have he := henv hdl
    cases htd : cfg.targetDatabase with
    | some t =>
      simp [restoreMain, hdl, htd, hconn, he, restorePg, hpr, checkedStep,
        hrdb, hsrc, hmiss]
    | none =>
      cases hpe : w.pgdatabaseEnv with
      | none => exact absurd ⟨htd, hpe⟩ ht
      | some p =>
        simp [restoreMain, hdl, htd, hpe, hconn, he, restorePg, hpr,
          checkedStep, hrdb, hsrc, hmiss]

theorem restore_missing_dump_aborts_witness :
    restoreMain ⟨true, true, false, false, some ['d', 'b'], some "t", false⟩
        ⟨none, true, 0, 0, [], true, 0, fun _ => true, 0, 0, 0⟩
      = ⟨Outcome.exited 1, [Cmd.kopiaConnect, Cmd.kopiaRestoreDb], 0⟩ :=
  restore_missing_dump_aborts _ _ ['d', 'b'] rfl rfl (by simp) (by simp)
    (by simp) rfl rfl (by decide)

/-- C6: for every backup invocation performing the database dump whose
resolved dump directory is not a sub-path of the resolved snapshot
source tree, the process exits 1 with an empty command trace: before
any external command is executed. -/
theorem backup_path_containment (cfg : BackupCfg) (w : BackupWorld)
    (hpb : cfg.postgresBackup = true)
    (hout : List.isPrefixOf cfg.odooDir cfg.postgresBackupDir = false) :
    backupMain cfg w = ⟨Outcome.exited 1, [], 0⟩ := by
  simp [backupMain, hpb, run_postgres_backup, hout]

theorem backup_path_containment_witness :
    backupMain ⟨true, true, [], ["a"], true⟩
        ⟨true, fun _ => true, 0, 0, 0, 0, 0, 0, 0, 0, 0⟩
      = ⟨Outcome.exited 1, [], 0⟩ :=
  backup_path_containment _ _ rfl (by decide)

/-- The readiness loop issues at most as many probe commands as it has
attempts left. -/
theorem pgWaitGo_length_le (probe : Nat → Bool) :
    ∀ l : List Nat, (pgWaitGo probe l).2.1.length ≤ l.length := by
  intro l
  induction l with
  | nil => simp [pgWaitGo]
  | cons i rest ih =>
    by_cases h : probe i
    · simp [pgWaitGo, h]
    · simp only [pgWaitGo, if_neg h, List.length_cons]
      exact Nat.succ_le_succ ih

/-- C3: the readiness wait polls at most 9 times; a probe failing
exactly 3 times then succeeding lets the orchestrator proceed after
the 4th attempt having slept 1+2+3 = 6 seconds; a probe never
succeeding within 9 attempts makes the orchestrator exit 1 having
issued no external commands other than the 9 probes. -/
theorem backup_readiness_polling (cfg : BackupCfg) (w : BackupWorld)
    (hpb : cfg.postgresBackup = true)
    (hcont : List.isPrefixOf cfg.odooDir cfg.postgresBackupDir = true)
    (henv : w.pgEnvOk = true) :
    (pgWait w.probe).2.1.length ≤ 9
    ∧ (w.probe 1 = false → w.probe 2 = false → w.probe 3 = false →
       w.probe 4 = true → w.pgDumpExit = 0 →
       run_postgres_backup cfg w = Except.ok
         ([Cmd.pgIsready, Cmd.pgIsready, Cmd.pgIsready, Cmd.pgIsready,
           Cmd.pgDump], 6))
    ∧ ((∀ i, 1 ≤ i → i ≤ 9 → w.probe i = false) →
       backupMain cfg w
         = ⟨Outcome.exited 1,
            [Cmd.pgIsready, Cmd.pgIsready, Cmd.pgIsready, Cmd.pgIsready,
             Cmd.pgIsready, Cmd.pgIsready, Cmd.pgIsready, Cmd.pgIsready,
             Cmd.pgIsready], 45⟩) := by
  refine ⟨pgWaitGo_length_le w.probe _, ?_, ?_⟩
  · intro h1 h2 h3 h4 hdump
    have hw : pgWait w.probe
        = (some 4, [Cmd.pgIsready, Cmd.pgIsready, Cmd.pgIsready,
                    Cmd.pgIsready], 6) := by
      simp [pgWait, pgWaitGo, h1, h2, h3, h4]
    simp [run_postgres_backup, hcont, henv, hw, hdump]
  · intro hfail
    have h1 := hfail 1 (by decide) (by decide)
    have h2 := hfail 2 (by decide) (by decide)
    have h3 := hfail 3 (by decide) (by decide)
    have h4 := hfail 4 (by decide) (by decide)
    have h5 := hfail 5 (by decide) (by decide)
    have h6 := hfail 6 (by decide) (by decide)
    have h7 := hfail 7 (by decide) (by decide)
    have h8 := hfail 8 (by decide) (by decide)
    have h9 := hfail 9 (by decide) (by decide)
    have hw : pgWait w.probe
        = (none, [Cmd.pgIsready, Cmd.pgIsready, Cmd.pgIsready, Cmd.pgIsready,
                  Cmd.pgIsready, Cmd.pgIsready, Cmd.pgIsready, Cmd.pgIsready,
                  Cmd.pgIsready], 45) := by
      simp [pgWait, pgWaitGo, h1, h2, h3, h4, h5, h6, h7, h8, h9]
    simp [backupMain, hpb, run_postgres_backup, hcont, henv, hw]

theorem backup_readiness_polling_witness :
    run_postgres_backup ⟨true, true, [], [], true⟩
        ⟨true, fun i => decide (4 ≤ i), 0, 0, 0, 0, 0, 0, 0, 0, 0⟩
      = Except.ok
         ([Cmd.pgIsready, Cmd.pgIsready, Cmd.pgIsready, Cmd.pgIsready,
           Cmd.pgDump], 6) :=
  (backup_readiness_polling _ _ rfl (by decide) rfl).2.1
    (by decide) (by decide) (by decide) (by decide) rfl

/-- The tail of the backup pipeline: stats then disconnect, both
must-succeed. -/
theorem backupStats_outcome (w : BackupWorld) (tr : List Cmd) (s : Nat) :
    (w.statsExit ≠ 0 →
      (backupStats w tr s).outcome = Outcome.raised Cmd.kopiaStats)
    ∧ (w.statsExit = 0 → w.disconnectExit ≠ 0 →
      (backupStats w tr s).outcome = Outcome.raised Cmd.kopiaDisconnect) := by
  constructor
  · intro h
    simp [backupStats, checkedStep, h]
  · intro h h2
    simp [backupStats, checkedStep, h, h2]

/-- Any backup run whose earlier steps all succeed reaches the stats
step: the whole run is the stats/disconnect tail applied to some
accumulated trace. -/
theorem backupMain_reaches_stats (cfg : BackupCfg) (w : BackupWorld)
    (hpg : cfg.postgresBackup = true →
      List.isPrefixOf cfg.odooDir cfg.postgresBackupDir = true
        ∧ w.pgEnvOk = true ∧ (pgWait w.probe).1.isSome = true
        ∧ w.pgDumpExit = 0)
    (hconn : w.connectExit = 0 ∨ w.createExit = 0)
    (hp1 : w.policyGlobalExit = 0) (hp2 : w.policyDbExit = 0)
    (hsnap : w.snapshotExit = 0)
    (hmaint : cfg.noKopiaMaintenance = false → w.maintenanceExit = 0) :
    ∃ tr s, backupMain cfg w = backupStats w tr s := by
  have hk : ∃ tr0 s0, backupMain cfg w = backupKopia cfg w tr0 s0 := by
    cases hb : cfg.postgresBackup with
    | false => exact ⟨[], 0, by simp [backupMain, hb]⟩
    | true =>
      obtain ⟨hc, he, hsome, hd⟩ := hpg hb
      rcases hq : pgWait w.probe with ⟨o, tr, s⟩
      cases o with
      | none => rw [hq] at hsome; simp at hsome
      | some i =>
        refine ⟨tr ++ [Cmd.pgDump], s, ?_⟩
        simp [backupMain, hb, run_postgres_backup, hc, he, hq, hd]
  obtain ⟨tr0, s0, hk⟩ := hk
  have hpol : ∃ tr1, backupKopia cfg w tr0 s0 = backupPolicies cfg w tr1 s0 := by
    by_cases hc0 : w.connectExit = 0
    · exact ⟨tr0 ++ [Cmd.kopiaConnect], by simp [backupKopia, hc0]⟩
    · have hcr : w.createExit = 0 := by
        cases hconn with
        | inl h => exact absurd h hc0
        | inr h => exact h
      exact ⟨tr0 ++ [Cmd.kopiaConnect] ++ [Cmd.kopiaCreate],
        by simp [backupKopia, hc0, checkedStep, hcr]⟩
  obtain ⟨tr1, hpol⟩ := hpol
  have hm : backupPolicies cfg w tr1 s0
      = backupMaint cfg w (tr1 ++ [Cmd.kopiaPolicyGlobal] ++ [Cmd.kopiaPolicyDb]
          ++ [Cmd.kopiaSnapshotCreate]) s0 := by
    simp [backupPolicies, checkedStep, hp1, hp2, hsnap]
  have hst : ∃ tr2, backupMaint cfg w (tr1 ++ [Cmd.kopiaPolicyGlobal]
      ++ [Cmd.kopiaPolicyDb] ++ [Cmd.kopiaSnapshotCreate]) s0
      = backupStats w tr2 s0 := by
    cases hnm : cfg.noKopiaMaintenance with
    | true =>
      exact ⟨tr1 ++ [Cmd.kopiaPolicyGlobal, Cmd.kopiaPolicyDb,
        Cmd.kopiaSnapshotCreate], by simp [backupMaint, hnm]⟩
    | false =>
      exact ⟨tr1 ++ [Cmd.kopiaPolicyGlobal, Cmd.kopiaPolicyDb,
        Cmd.kopiaSnapshotCreate, Cmd.kopiaMaintenance],
        by simp [backupMaint, hnm, checkedStep, hmaint hnm]⟩
  obtain ⟨tr2, hst⟩ := hst
  exact ⟨tr2, s0, by rw [hk, hpol, hm, hst]⟩

/-- C1 counterexample: a concrete run reaching the statistics step
where the stats command exits non-zero: the CalledProcessError
propagates, the run aborts, and the process does not exit 0. -/
theorem backup_stats_best_effort_counterexample :
    backupMain ⟨false, true, [], [], true⟩
        ⟨true, fun _ => true, 0, 0, 0, 0, 0, 0, 0, 1, 0⟩
      = ⟨Outcome.raised Cmd.kopiaStats,
         [Cmd.kopiaConnect, Cmd.kopiaPolicyGlobal, Cmd.kopiaPolicyDb,
          Cmd.kopiaSnapshotCreate, Cmd.kopiaStats], 0⟩
    ∧ Outcome.raised Cmd.kopiaStats ≠ Outcome.exited 0 :=
  ⟨rfl, by decide⟩

/-- C1 amended: in the backup orchestrator the statistics-emission and
repository-disconnect steps are NOT best-effort: for every run that
reaches them, a non-zero exit of the stats command (or, stats
succeeding, of the disconnect command) raises a propagated command
error that aborts the run, so the process does not exit 0. -/
theorem backup_stats_disconnect_abort (cfg : BackupCfg) (w : BackupWorld)
    (hpg : cfg.postgresBackup = true →
      List.isPrefixOf cfg.odooDir cfg.postgresBackupDir = true
        ∧ w.pgEnvOk = true ∧ (pgWait w.probe).1.isSome = true
        ∧ w.pgDumpExit = 0)
    (hconn : w.connectExit = 0 ∨ w.createExit = 0)
    (hp1 : w.policyGlobalExit = 0) (hp2 : w.policyDbExit = 0)
    (hsnap : w.snapshotExit = 0)
    (hmaint : cfg.noKopiaMaintenance = false → w.maintenanceExit = 0) :
    (w.statsExit ≠ 0 →
      (backupMain cfg w).outcome = Outcome.raised Cmd.kopiaStats)
    ∧ (w.statsExit = 0 → w.disconnectExit ≠ 0 →
      (backupMain cfg w).outcome = Outcome.raised Cmd.kopiaDisconnect) := by
  obtain ⟨tr, s, hm⟩ := backupMain_reaches_stats cfg w hpg hconn hp1 hp2
    hsnap hmaint
  rw [hm]
  exact backupStats_outcome w tr s

theorem backup_stats_disconnect_abort_witness :
    (backupMain ⟨false, true, [], [], true⟩
        ⟨true, fun _ => true, 0, 0, 0, 0, 0, 0, 0, 0, 1⟩).outcome
      = Outcome.raised Cmd.kopiaDisconnect :=
  (backup_stats_disconnect_abort _ _ (by simp) (Or.inl rfl) rfl rfl rfl
    (by simp)).2 rfl (by decide)

end OdooKopia
